import Mathlib

/-!
Verification of the `agent-git` MCP server (`src/agent-git/main.py`): a shallow
embedding of its tool functions over an explicit world state, together with
theorems settling the behavioural claims about it.

Modelling conventions:
* Python exceptions are values of `PyExn`; a computation that may raise returns
  `Except PyExn α` paired with the world state at the point of return or raise
  (Python state mutations are not rolled back on an exception).
* A `try/except` boundary is `pyRun`: it converts a raised exception into the
  handler's string result, exactly as each tool's `except` clause does.
* The VCS backend (the GitPython library and the `git` subprocesses, which are
  external collaborators, not code of this repository) is modelled from the
  spec's collaborator contract as executable functions over `Repo`/`World`.
-/

/-- A file in a commit's tree (path and content). -/
structure TreeFile where
  path : String
  content : String
deriving DecidableEq

/-- A commit object as the backend records it: hash, author and committer
identities, date, message, parent hashes and tree. -/
structure Commit where
  hexsha : String
  author : String
  authorEmail : String
  committer : String
  committerEmail : String
  date : String
  message : String
  parents : List String
  files : List TreeFile
deriving DecidableEq

/-- Python exception values that can cross the modelled code. -/
inductive PyExn where
  | valueError (msg : String)
  | invalidGitRepositoryError (path : String)
  | gitCommandError (msg : String)
  | indexError (msg : String)
  | badName (rev : String)
  | calledProcessError (stderr : String)
deriving DecidableEq

/-- `str(e)` for each modelled exception, as the handlers interpolate it. -/
def PyExn.toMessage : PyExn → String
  | .valueError m => m
  | .invalidGitRepositoryError p => p
  | .gitCommandError m => m
  | .indexError m => m
  | .badName rev => "Ref '" ++ rev ++ "' did not resolve to an object"
  | .calledProcessError _ => "Command returned non-zero exit status 1."

/-- The process environment / a subprocess environment (`os.environ` shape):
an association list where the most recent binding of a key shadows older ones
(a faithful map model of a Python dict under update). -/
abbrev EnvMap := List (String × String)

/-- Dict update `env[k] = v`: the new binding shadows any older one. -/
def envSet (m : EnvMap) (k v : String) : EnvMap := (k, v) :: m

/-- Dict lookup `env[k]`. -/
def envGet (m : EnvMap) (k : String) : Option String :=
  (m.find? (fun kv => kv.1 == k)).map (fun kv => kv.2)

/-- The state of one repository as the VCS backend owns it.  The trailing
fields are the backend collaborator's behaviour for the read/stage operations
this server merely passes through (modelled as unconstrained `Except`-valued
behaviour so that the dispatch boundary is verified against every possible
backend answer, including a raised exception). -/
structure Repo where
  commits : List Commit
  heads : List String
  activeBranch : String
  remotes : List (String × String)
  staged : List TreeFile
  allCommits : List Commit
  statusOut : Except PyExn String
  diffWorkOut : Except PyExn String
  diffCachedOut : Except PyExn String
  diffTargetOut : String → Except PyExn String
  indexAddOut : List String → Except PyExn (List TreeFile)
  indexResetOut : Except PyExn Unit
  pushOut : String → String → Bool → Except PyExn String

/-- The whole modelled world: ambient process environment, the filesystem
facts `validate_repo` and `git_init` consult, the repositories by path, and
backend bookkeeping (`nextSha` is the hash the backend will assign to the next
commit, `commitInvocations` counts executions of the backend commit operation
so that "the commit operation was never invoked" is observable). -/
structure World where
  env : EnvMap
  existingPaths : List String
  nonemptyDirs : List String
  gitDirs : List String
  repos : List (String × Repo)
  nextSha : String
  now : String
  commitInvocations : Nat
  initOut : String → Except PyExn Repo

/-- The repository registered at a path, if any (`git.Repo(path)` succeeding). -/
def repoAt (w : World) (p : String) : Option Repo :=
  (w.repos.find? (fun pr => pr.1 == p)).map (fun pr => pr.2)

/-- Register (or replace) the repository at a path. -/
def setRepoAt (w : World) (p : String) (r : Repo) : World :=
  { w with repos := (p, r) :: w.repos }

/-- `validate_repo` of `main.py`: empty path and missing path raise
`ValueError`; a path that is no repository raises `InvalidGitRepositoryError`;
otherwise the repository object is returned. -/
def validate_repo (w : World) (repo_path : String) : Except PyExn Repo :=
  if repo_path == "" then
    .error (.valueError "Repository path cannot be empty")
  else if !(w.existingPaths.contains repo_path) then
    .error (.valueError ("Repository path does not exist: " ++ repo_path))
  else
    match repoAt w repo_path with
    | some r => .ok r
    | none => .error (.invalidGitRepositoryError repo_path)

/-- The `try/except` boundary of one tool: a raised exception becomes the
handler's (returned, not raised) result; a normal result passes through. -/
def pyRun {α : Type} (handler : PyExn → α) :
    (Except PyExn α) × World → (Except PyExn α) × World
  | (.error e, w) => (.ok (handler e), w)
  | (.ok v, w) => (.ok v, w)

/-- Run the body of a tool after `validate_repo`; a validation failure is a
raised exception reaching the tool's own handler. -/
def withRepo {α : Type} (w : World) (p : String)
    (k : Repo → (Except PyExn α) × World) : (Except PyExn α) × World :=
  match validate_repo w p with
  | .error e => (.error e, w)
  | .ok r => k r

/-- `git_status`. -/
def git_status (w : World) (repo_path : String) : (Except PyExn String) × World :=
  pyRun (fun e => "Error: " ++ e.toMessage)
    (withRepo w repo_path fun repo =>
      match repo.statusOut with
      | .error e => (.error e, w)
      | .ok s => (.ok s, w))

/-- `git_diff_unstaged`. -/
def git_diff_unstaged (w : World) (repo_path : String) : (Except PyExn String) × World :=
  pyRun (fun e => "Error: " ++ e.toMessage)
    (withRepo w repo_path fun repo =>
      match repo.diffWorkOut with
      | .error e => (.error e, w)
      | .ok s => (.ok s, w))

/-- `git_diff_staged`. -/
def git_diff_staged (w : World) (repo_path : String) : (Except PyExn String) × World :=
  pyRun (fun e => "Error: " ++ e.toMessage)
    (withRepo w repo_path fun repo =>
      match repo.diffCachedOut with
      | .error e => (.error e, w)
      | .ok s => (.ok s, w))

/-- `git_diff`. -/
def git_diff (w : World) (repo_path target : String) : (Except PyExn String) × World :=
  pyRun (fun e => "Error: " ++ e.toMessage)
    (withRepo w repo_path fun repo =>
      match repo.diffTargetOut target with
      | .error e => (.error e, w)
      | .ok s => (.ok s, w))

/-- `git_add`. -/
def git_add (w : World) (repo_path : String) (files : List String) :
    (Except PyExn String) × World :=
  pyRun (fun e => "Error staging files: " ++ e.toMessage)
    (withRepo w repo_path fun repo =>
      match repo.indexAddOut files with
      | .error e => (.error e, w)
      | .ok st => (.ok "Files staged successfully", setRepoAt w repo_path { repo with staged := st }))

/-- `git_reset`. -/
def git_reset (w : World) (repo_path : String) : (Except PyExn String) × World :=
  pyRun (fun e => "Error resetting staged changes: " ++ e.toMessage)
    (withRepo w repo_path fun repo =>
      match repo.indexResetOut with
      | .error e => (.error e, w)
      | .ok _ => (.ok "All staged changes reset", setRepoAt w repo_path { repo with staged := [] }))

/-- One commit line of `git_log`. -/
def logEntry (c : Commit) : String :=
  "Commit: " ++ c.hexsha ++ "\nAuthor: " ++ c.author ++ "\nDate:   " ++ c.date
    ++ "\nMessage: " ++ c.message

/-- `git_log`: `repo.iter_commits(max_count=n)` enumerates the commits
reachable from HEAD newest first (the backend collaborator contract),
formatted one string per commit. -/
def git_log (w : World) (repo_path : String) (max_count : Nat) :
    (Except PyExn (List String)) × World :=
  pyRun (fun e => ["Error retrieving commit log: " ++ e.toMessage])
    (withRepo w repo_path fun repo =>
      (.ok ((repo.commits.take max_count).map logEntry), w))

/-- `git_create_branch`: the refs lookup for an explicit base is modelled over
the local branches; a missing base raises as GitPython's ref lookup does. -/
def git_create_branch (w : World) (repo_path branch_name : String)
    (base_branch : Option String) : (Except PyExn String) × World :=
  pyRun (fun e => "Error creating branch: " ++ e.toMessage)
    (withRepo w repo_path fun repo =>
      if repo.heads.contains branch_name then
        (.ok ("Branch '" ++ branch_name ++ "' already exists"), w)
      else
        match (match base_branch with
               | some bb =>
                 if repo.heads.contains bb then Except.ok bb
                 else Except.error (PyExn.indexError ("No item found with id '" ++ bb ++ "'"))
               | none => Except.ok repo.activeBranch) with
        | .error e => (.error e, w)
        | .ok base =>
          (.ok ("Created branch '" ++ branch_name ++ "' from '" ++ base ++ "'"),
           setRepoAt w repo_path { repo with heads := repo.heads ++ [branch_name] }))

/-- Modelled backend: `git checkout <branch>` on the repository at `path`
(the spec's collaborator contract: checking out an existing branch makes it
the active branch; `HEAD` is a no-op; anything else fails). -/
def runGitCheckout (w : World) (path branch : String) : (Except PyExn Unit) × World :=
  match repoAt w path with
  | none => (.error (.gitCommandError ("not a git repository: " ++ path)), w)
  | some r =>
    if r.heads.contains branch then
      (.ok (), setRepoAt w path { r with activeBranch := branch })
    else if branch == "HEAD" then
      (.ok (), w)
    else
      (.error (.gitCommandError
        ("pathspec '" ++ branch ++ "' did not match any file(s) known to git")), w)

/-- `git_checkout`. -/
def git_checkout (w : World) (repo_path branch_name : String) :
    (Except PyExn String) × World :=
  pyRun (fun e => "Error checking out branch: " ++ e.toMessage)
    (withRepo w repo_path fun repo =>
      if !(repo.heads.contains branch_name) && branch_name != "HEAD" then
        (.ok ("Error: Branch '" ++ branch_name ++ "' does not exist"), w)
      else
        match runGitCheckout w repo_path branch_name with
        | (.error e, w1) => (.error e, w1)
        | (.ok _, w1) => (.ok ("Switched to branch '" ++ branch_name ++ "'"), w1))

/-- Merge staged files over a base tree (staged content shadows the base). -/
def mergeTree (base upd : List TreeFile) : List TreeFile :=
  upd ++ base.filter (fun f => upd.all (fun g => g.path != f.path))

/-- The commit object the backend records for a `git commit` run with the
execution environment `env`: git's authorship resolution reads the four
`GIT_AUTHOR_*`/`GIT_COMMITTER_*` variables from that environment. -/
def newCommitOf (w : World) (env : EnvMap) (msg : String) (r : Repo) : Commit :=
  { hexsha := w.nextSha
    author := (envGet env "GIT_AUTHOR_NAME").getD ""
    authorEmail := (envGet env "GIT_AUTHOR_EMAIL").getD ""
    committer := (envGet env "GIT_COMMITTER_NAME").getD ""
    committerEmail := (envGet env "GIT_COMMITTER_EMAIL").getD ""
    date := w.now
    message := msg
    parents := match r.commits with | [] => [] | c0 :: _ => [c0.hexsha]
    files := mergeTree (match r.commits with | [] => [] | c0 :: _ => c0.files) r.staged }

/-- The repository after the backend commit: the new commit becomes HEAD, is
added to the object store, and the staged index delta is consumed. -/
def committedRepo (w : World) (env : EnvMap) (msg : String) (r : Repo) : Repo :=
  { r with
    commits := newCommitOf w env msg r :: r.commits
    allCommits := newCommitOf w env msg r :: r.allCommits
    staged := [] }

/-- Modelled backend: `subprocess.run(["git", "-C", path, "commit", "-m", msg],
env=env, check=True, ...)`.  The subprocess executes (counted by
`commitInvocations`) and commits the staged index with the identity read from
the supplied environment; with nothing staged, or no repository at `path`, git
exits non-zero and `check=True` raises `subprocess.CalledProcessError`. -/
def runGitCommit (w : World) (path : String) (env : EnvMap) (msg : String) :
    (Except PyExn String) × World :=
  let w0 := { w with commitInvocations := w.commitInvocations + 1 }
  match repoAt w path with
  | none => (.error (.calledProcessError ("fatal: not a git repository: " ++ path)), w0)
  | some r =>
    if r.staged.isEmpty then
      (.error (.calledProcessError "nothing to commit, working tree clean"), w0)
    else
      (.ok ("[" ++ r.activeBranch ++ " " ++ w.nextSha ++ "] " ++ msg),
       setRepoAt w0 path (committedRepo w env msg r))

/-- Modelled backend: `subprocess.run(["git", "-C", path, "rev-parse", "HEAD"],
check=True, ...)`, stdout stripped: the full hash of the HEAD commit. -/
def runGitRevParseHead (w : World) (path : String) : (Except PyExn String) × World :=
  match repoAt w path with
  | none => (.error (.calledProcessError ("fatal: not a git repository: " ++ path)), w)
  | some r =>
    match r.commits with
    | [] => (.error (.calledProcessError "fatal: ambiguous argument 'HEAD'"), w)
    | c :: _ => (.ok c.hexsha, w)

/-- Leading-segment test on character lists. -/
def charsLead : List Char → List Char → Bool
  | [], _ => true
  | _ :: _, [] => false
  | p :: ps, c :: cs => p == c && charsLead ps cs

/-- Python's `str.startswith`: the string begins with the given literal. -/
def pyStartsWith (s pre : String) : Bool := charsLead pre.data s.data

/-- The synthetic display name `git_commit_direct` derives. -/
def agentFullName (agent_name user_name : String) : String :=
  "MCP Agent (" ++ agent_name ++ ") on Behalf Of " ++ user_name

/-- The commit environment: `os.environ.copy()` followed by the four identity
assignments, in source order. -/
def commitEnv (ambient : EnvMap) (agent_full_name agent_email : String) : EnvMap :=
  envSet (envSet (envSet (envSet ambient
    "GIT_AUTHOR_NAME" agent_full_name)
    "GIT_AUTHOR_EMAIL" agent_email)
    "GIT_COMMITTER_NAME" agent_full_name)
    "GIT_COMMITTER_EMAIL" agent_email

/-- The body of `git_commit_direct`, up to but not including its two `except`
clauses: repository validation, the message-tag check (raising `ValueError`),
identity derivation, the isolated commit subprocess, and the `rev-parse HEAD`
resolution of the new hash. -/
def git_commit_direct_body (w : World)
    (repo_path message agent_name user_name user_email : String) :
    (Except PyExn String) × World :=
  withRepo w repo_path fun _ =>
    if !(pyStartsWith message "[agent]") then
      (.error (.valueError "Commit message must start with '[agent]'."), w)
    else
      let agent_email := user_email
      let agent_full_name := agentFullName agent_name user_name
      let env := commitEnv w.env agent_full_name agent_email
      match runGitCommit w repo_path env message with
      | (.error e, w1) => (.error e, w1)
      | (.ok _, w1) =>
        match runGitRevParseHead w1 repo_path with
        | (.error e, w2) => (.error e, w2)
        | (.ok commit_hash, w2) =>
          (.ok ("Changes committed successfully with hash " ++ commit_hash
                  ++ " (as '" ++ agent_full_name ++ "')"), w2)

/-- The two `except` clauses of `git_commit_direct`, in source order:
`subprocess.CalledProcessError` first, then the catch-all `Exception`. -/
def commitExceptionHandler : PyExn → String
  | .calledProcessError stderr => "Commit failed: " ++ stderr
  | e => "Error committing changes: " ++ e.toMessage

/-- `git_commit_direct`. -/
def git_commit_direct (w : World)
    (repo_path message agent_name user_name user_email : String) :
    (Except PyExn String) × World :=
  pyRun commitExceptionHandler
    (git_commit_direct_body w repo_path message agent_name user_name user_email)

/-- `git_commit`: delegates to `git_commit_direct` with the same arguments. -/
def git_commit (w : World)
    (repo_path message agent_name user_name user_email : String) :
    (Except PyExn String) × World :=
  git_commit_direct w repo_path message agent_name user_name user_email

/-- One entry of a patch-style diff (`git.Diff`): `a_path`/`b_path` sides and
the raw patch text. -/
structure DiffEntry where
  a_path : Option String
  b_path : Option String
  patch : String
deriving DecidableEq

/-- Python's f-string rendering of an `Optional[str]`. -/
def pyStrOpt : Option String → String
  | none => "None"
  | some s => s

/-- Modelled backend: `commit.diff(git.NULL_TREE, create_patch=True)`, which
GitPython runs as `git diff-tree --root`: every file of the commit's tree is
reported as an added path (no `a` side, the file on the `b` side, an
all-additions patch). -/
def nullTreeDiff (c : Commit) : List DiffEntry :=
  c.files.map fun f => { a_path := none, b_path := some f.path, patch := "+" ++ f.content }

/-- Modelled backend: `parent.diff(commit, create_patch=True)` between two
trees: deletions, additions, then content changes. -/
def treeDiff (old new : List TreeFile) : List DiffEntry :=
  (old.filter (fun f => new.all (fun g => g.path != f.path))).map
      (fun f => { a_path := some f.path, b_path := none, patch := "-" ++ f.content })
    ++ (new.filter (fun g => old.all (fun f => f.path != g.path))).map
      (fun g => { a_path := none, b_path := some g.path, patch := "+" ++ g.content })
    ++ new.filterMap (fun g =>
        match old.find? (fun f => f.path == g.path) with
        | some f =>
          if f.content != g.content then
            some { a_path := some f.path, b_path := some g.path,
                   patch := "-" ++ f.content ++ "\n+" ++ g.content }
          else none
        | none => none)

/-- Modelled backend: `repo.commit(revision)`, resolving a revision in the
object store by full hash; an unresolvable revision raises. -/
def resolveCommit (r : Repo) (rev : String) : Except PyExn Commit :=
  match r.allCommits.find? (fun c => c.hexsha == rev) with
  | some c => .ok c
  | none => .error (.badName rev)

/-- The metadata header `git_show` emits (`out[0]`). -/
def showHeader (c : Commit) : String :=
  "Commit: " ++ c.hexsha ++ "\nAuthor: " ++ c.author ++ "\nDate:   " ++ c.date
    ++ "\nMessage: " ++ c.message ++ "\n\n"

/-- One diff block `git_show` emits per changed path. -/
def showDiffEntry (d : DiffEntry) : String :=
  "--- " ++ pyStrOpt d.a_path ++ "\n+++ " ++ pyStrOpt d.b_path ++ "\n" ++ d.patch ++ "\n"

/-- `"".join(out)` over the accumulated output list. -/
def joinAll : List String → String
  | [] => ""
  | s :: rest => s ++ joinAll rest

/-- The diff entries `git_show` formats: the first parent against the commit,
or — for a root commit — the commit against the empty tree. -/
def showEntries (repo : Repo) (c : Commit) : List DiffEntry :=
  match c.parents with
  | [] => nullTreeDiff c
  | psha :: _ =>
    match repo.allCommits.find? (fun c0 => c0.hexsha == psha) with
    | some parent => treeDiff parent.files c.files
    | none => []

/-- `git_show`. -/
def git_show (w : World) (repo_path revision : String) : (Except PyExn String) × World :=
  pyRun (fun e => "Error showing revision: " ++ e.toMessage)
    (withRepo w repo_path fun repo =>
      match resolveCommit repo revision with
      | .error e => (.error e, w)
      | .ok c =>
        (.ok (joinAll (showHeader c :: (showEntries repo c).map showDiffEntry)), w))

/-- `git_init`: the already-initialized early return needs the path to exist,
be a non-empty directory and contain `.git`; otherwise `git.Repo.init` runs
(its outcome is the backend's, modelled by `initOut`), and on success the
created repository's control directory `<path>/.git` is reported. -/
def git_init (w : World) (repo_path : String) : (Except PyExn String) × World :=
  pyRun (fun e => "Error initializing repository: " ++ e.toMessage)
    (if w.existingPaths.contains repo_path && w.nonemptyDirs.contains repo_path
        && w.gitDirs.contains repo_path then
       (.ok ("Repository already initialized at " ++ repo_path), w)
     else
       match w.initOut repo_path with
       | .error e => (.error e, w)
       | .ok r =>
         (.ok ("Initialized empty Git repository in " ++ repo_path ++ "/.git"),
          { setRepoAt w repo_path r with
            existingPaths := repo_path :: w.existingPaths
            nonemptyDirs := repo_path :: w.nonemptyDirs
            gitDirs := repo_path :: w.gitDirs }))

/-- `git_remote_add`. -/
def git_remote_add (w : World) (repo_path name url : String) :
    (Except PyExn String) × World :=
  pyRun (fun e => "Error adding remote: " ++ e.toMessage)
    (withRepo w repo_path fun repo =>
      if repo.remotes.any (fun rm => rm.1 == name) then
        (.ok ("Remote '" ++ name ++ "' already exists"), w)
      else
        (.ok ("Added remote '" ++ name ++ "' with URL '" ++ url ++ "'"),
         setRepoAt w repo_path { repo with remotes := repo.remotes ++ [(name, url)] }))

/-- `git_push`. -/
def git_push (w : World) (repo_path remote : String) (branch : Option String)
    (force : Bool) : (Except PyExn String) × World :=
  pyRun (fun e => "Error pushing to remote: " ++ e.toMessage)
    (withRepo w repo_path fun repo =>
      if !(repo.remotes.any (fun rm => rm.1 == remote)) then
        (.ok ("Error: Remote '" ++ remote ++ "' does not exist"), w)
      else
        let br := match branch with | some b => b | none => repo.activeBranch
        match repo.pushOut remote br force with
        | .error e => (.error e, w)
        | .ok out => (.ok ("Push successful: " ++ out), w))

/-- `Except` result carries a value (no exception escaped). -/
def exceptOk {α : Type} : Except PyExn α → Bool
  | .ok _ => true
  | .error _ => false

/-- The try/except boundary never lets an exception escape. -/
theorem pyRun_ok {α : Type} (handler : PyExn → α) (b : (Except PyExn α) × World) :
    exceptOk (pyRun handler b).1 = true := by
  rcases b with ⟨res, w⟩
  cases res <;> rfl

/-- The try/except boundary returns the body's final world unchanged. -/
theorem pyRun_world {α : Type} (handler : PyExn → α) (b : (Except PyExn α) × World) :
    (pyRun handler b).2 = b.2 := by
  rcases b with ⟨res, w⟩
  cases res <;> rfl

/-- Successful validation: non-empty existing path with a repository at it. -/
theorem validate_repo_ok (w : World) (p : String) (r : Repo)
    (hp : (p == "") = false)
    (hex : w.existingPaths.contains p = true)
    (hr : repoAt w p = some r) :
    validate_repo w p = .ok r := by
  have hmem : p ∈ w.existingPaths := by simpa using hex
  simp [validate_repo, hp, hr, hmem]

/-- Registering a repository at a path makes it the one found there. -/
theorem repoAt_set_same (w : World) (p : String) (r : Repo) :
    repoAt (setRepoAt w p r) p = some r := by
  simp [repoAt, setRepoAt, List.find?]

/-- The commit environment carries the display name as author name. -/
theorem commitEnv_author_name (m : EnvMap) (n e : String) :
    envGet (commitEnv m n e) "GIT_AUTHOR_NAME" = some n := rfl

/-- The commit environment carries the email as author email. -/
theorem commitEnv_author_email (m : EnvMap) (n e : String) :
    envGet (commitEnv m n e) "GIT_AUTHOR_EMAIL" = some e := rfl

/-- The commit environment carries the display name as committer name. -/
theorem commitEnv_committer_name (m : EnvMap) (n e : String) :
    envGet (commitEnv m n e) "GIT_COMMITTER_NAME" = some n := rfl

/-- The commit environment carries the email as committer email. -/
theorem commitEnv_committer_email (m : EnvMap) (n e : String) :
    envGet (commitEnv m n e) "GIT_COMMITTER_EMAIL" = some e := rfl

/-- A backend commit with a staged index succeeds and installs the new commit. -/
theorem runGitCommit_ok (w : World) (p : String) (env : EnvMap) (msg : String) (r : Repo)
    (hr : repoAt w p = some r) (hst : r.staged.isEmpty = false) :
    runGitCommit w p env msg =
      (.ok ("[" ++ r.activeBranch ++ " " ++ w.nextSha ++ "] " ++ msg),
       setRepoAt { w with commitInvocations := w.commitInvocations + 1 } p
         (committedRepo w env msg r)) := by
  simp [runGitCommit, hr, hst]

/-- The backend commit subprocess never touches the ambient environment. -/
theorem runGitCommit_env (w : World) (p : String) (env : EnvMap) (msg : String) :
    ((runGitCommit w p env msg).2).env = w.env := by
  unfold runGitCommit
  cases repoAt w p
  · rfl
  · dsimp only
    split <;> rfl

/-- `rev-parse HEAD` never changes the world. -/
theorem runGitRevParseHead_world (w : World) (p : String) :
    (runGitRevParseHead w p).2 = w := by
  unfold runGitRevParseHead
  cases repoAt w p with
  | none => rfl
  | some r => cases h : r.commits <;> simp [h]

/-- The root commit of the sample history. -/
def rootCommit : Commit :=
  { hexsha := "a1b2c3d4e5f60718293a4b5c6d7e8f9012345678"
    author := "Andor"
    authorEmail := "andor@andor.us"
    committer := "Andor"
    committerEmail := "andor@andor.us"
    date := "2025-01-01 12:00:00+00:00"
    message := "initial commit"
    parents := []
    files := [{ path := "test.txt", content := "initial content" }] }

/-- A sample repository: one root commit, `master` checked out, one staged
change, and a benign backend collaborator. -/
def sampleRepo : Repo :=
  { commits := [rootCommit]
    heads := ["master"]
    activeBranch := "master"
    remotes := []
    staged := [{ path := "test.txt", content := "updated content" }]
    allCommits := [rootCommit]
    statusOut := .ok "On branch master"
    diffWorkOut := .ok ""
    diffCachedOut := .ok ""
    diffTargetOut := fun _ => .ok ""
    indexAddOut := fun _ => .ok []
    indexResetOut := .ok ()
    pushOut := fun _ _ _ => .ok "" }

/-- A valid repository with no commits at all. -/
def emptyRepo : Repo :=
  { sampleRepo with commits := [], allCommits := [], staged := [] }

/-- The sample world: `/repo` and `/empty` are valid repositories. -/
def sampleWorld : World :=
  { env := [("PATH", "/usr/bin"), ("HOME", "/home/andor")]
    existingPaths := ["/repo", "/empty"]
    nonemptyDirs := ["/repo", "/empty"]
    gitDirs := ["/repo", "/empty"]
    repos := [("/repo", sampleRepo), ("/empty", emptyRepo)]
    nextSha := "0123456789abcdef0123456789abcdef01234567"
    now := "2026-10-12 00:00:00+00:00"
    commitInvocations := 0
    initOut := fun p => .error (.gitCommandError ("cannot create directory " ++ p)) }

/-- The complete success path of `git_commit_direct`: valid repository, tagged
message, staged index.  The result embeds the hash resolved from HEAD and the
synthetic display name, and the world records the new commit. -/
theorem git_commit_direct_ok (w : World) (p msg an un ue : String) (r : Repo)
    (hp : (p == "") = false)
    (hex : w.existingPaths.contains p = true)
    (hr : repoAt w p = some r)
    (htag : pyStartsWith msg "[agent]" = true)
    (hst : r.staged.isEmpty = false) :
    git_commit_direct w p msg an un ue =
      (.ok ("Changes committed successfully with hash " ++ w.nextSha ++ " (as '"
              ++ agentFullName an un ++ "')"),
       setRepoAt { w with commitInvocations := w.commitInvocations + 1 } p
         (committedRepo w (commitEnv w.env (agentFullName an un) ue) msg r)) := by
  have hv := validate_repo_ok w p r hp hex hr
  have hrc := runGitCommit_ok w p (commitEnv w.env (agentFullName an un) ue) msg r hr hst
  unfold git_commit_direct git_commit_direct_body withRepo
  rw [hv]
  simp [htag, hrc, runGitRevParseHead, repoAt_set_same, committedRepo, newCommitOf, pyRun]

/-- Claim C1 (code evidence): on a valid repository with a staged change, a
commit message that does not start with `[agent]` does NOT surface as a raised
precondition violation: the catch-all `except Exception` clause converts the
`ValueError` into the returned string
`Error committing changes: Commit message must start with '[agent]'.` (the
same `Error committing changes:` shape as other failures).  No backend
mutation occurs: the world — index, HEAD and the commit-invocation count — is
unchanged. -/
theorem commit_untagged_message_swallowed_at_boundary :
    git_commit_direct sampleWorld "/repo" "update test.txt" "Claude" "Andor" "andor@andor.us"
      = (.ok "Error committing changes: Commit message must start with '[agent]'.",
         sampleWorld)
    ∧ (git_commit_direct sampleWorld "/repo" "update test.txt" "Claude" "Andor"
        "andor@andor.us").2.commitInvocations = sampleWorld.commitInvocations :=
  ⟨rfl, rfl⟩

/-- Claim C2: every successful commit through `git_commit_direct` records
identical author and committer identities: both names are the derived display
name `MCP Agent (<agent_name>) on Behalf Of <user_name>` (`agentFullName`) and
both emails are the `user_email` argument verbatim. -/
theorem commit_author_and_committer_identity
    (w : World) (p msg an un ue : String) (r : Repo)
    (hp : (p == "") = false)
    (hex : w.existingPaths.contains p = true)
    (hr : repoAt w p = some r)
    (htag : pyStartsWith msg "[agent]" = true)
    (hst : r.staged.isEmpty = false) :
    ∃ r' c rest,
      repoAt (git_commit_direct w p msg an un ue).2 p = some r' ∧
      r'.commits = c :: rest ∧
      c.author = agentFullName an un ∧
      c.committer = agentFullName an un ∧
      c.authorEmail = ue ∧
      c.committerEmail = ue ∧
      (git_commit_direct w p msg an un ue).1 =
        .ok ("Changes committed successfully with hash " ++ w.nextSha ++ " (as '"
              ++ agentFullName an un ++ "')") := by
  have hok := git_commit_direct_ok w p msg an un ue r hp hex hr htag hst
  refine ⟨committedRepo w (commitEnv w.env (agentFullName an un) ue) msg r,
          newCommitOf w (commitEnv w.env (agentFullName an un) ue) msg r,
          r.commits, ?_, rfl, ?_, ?_, ?_, ?_, ?_⟩
  · rw [hok]
    exact repoAt_set_same _ _ _
  · simp [newCommitOf, commitEnv_author_name]
  · simp [newCommitOf, commitEnv_committer_name]
  · simp [newCommitOf, commitEnv_author_email]
  · simp [newCommitOf, commitEnv_committer_email]
  · rw [hok]

/-- Witness for C2 at a concrete successful commit. -/
theorem commit_author_and_committer_identity_witness :
    repoAt sampleWorld "/repo" = some sampleRepo ∧
    pyStartsWith "[agent] update" "[agent]" = true ∧
    sampleRepo.staged.isEmpty = false ∧
    (∃ r' c rest,
      repoAt (git_commit_direct sampleWorld "/repo" "[agent] update" "Claude" "Andor"
        "andor@andor.us").2 "/repo" = some r' ∧
      r'.commits = c :: rest ∧
      c.author = agentFullName "Claude" "Andor" ∧
      c.committer = agentFullName "Claude" "Andor" ∧
      c.authorEmail = "andor@andor.us" ∧
      c.committerEmail = "andor@andor.us" ∧
      (git_commit_direct sampleWorld "/repo" "[agent] update" "Claude" "Andor"
        "andor@andor.us").1 =
        .ok ("Changes committed successfully with hash " ++ sampleWorld.nextSha
              ++ " (as '" ++ agentFullName "Claude" "Andor" ++ "')")) :=
  ⟨rfl, rfl, rfl,
   commit_author_and_committer_identity sampleWorld "/repo" "[agent] update" "Claude"
     "Andor" "andor@andor.us" sampleRepo rfl rfl rfl rfl rfl⟩

/-- Claim C9: `git_commit` and `git_commit_direct` agree on every input: the
former is a pure delegation to the latter. -/
theorem git_commit_equals_git_commit_direct
    (w : World) (p msg an un ue : String) :
    git_commit w p msg an un ue = git_commit_direct w p msg an un ue := rfl

/-- Claim C10: `git_commit_direct` validates the repository before the
message-tag check: whenever validation fails, the reported outcome is that
validation failure (run through the commit handler), for every message — the
tag violation is never reached — and the world is unchanged. -/
theorem commit_validates_repo_before_tag_check
    (w : World) (p msg an un ue : String) (e : PyExn)
    (hv : validate_repo w p = .error e) :
    git_commit_direct w p msg an un ue = (.ok (commitExceptionHandler e), w) := by
  simp [git_commit_direct, git_commit_direct_body, withRepo, hv, pyRun]

/-- Witness for C10: empty repository path together with an untagged message
reports the validation failure, not the tag violation. -/
theorem commit_validates_repo_before_tag_check_witness :
    validate_repo sampleWorld "" = .error (.valueError "Repository path cannot be empty") ∧
    git_commit_direct sampleWorld "" "missing tag" "Claude" "Andor" "andor@andor.us" =
      (.ok (commitExceptionHandler (.valueError "Repository path cannot be empty")),
       sampleWorld) :=
  ⟨rfl,
   commit_validates_repo_before_tag_check sampleWorld "" "missing tag" "Claude" "Andor"
     "andor@andor.us" (.valueError "Repository path cannot be empty") rfl⟩

/-- Claim C3: no tool operation lets an exception escape its boundary: for
every world (hence every filesystem/repository input, including empty and
missing paths and invalid repositories) and every behaviour of the backend
collaborator (including raised backend exceptions), each of the fourteen tool
functions returns a value rather than propagating the exception. -/
theorem no_operation_propagates_exception (w : World)
    (p target name url remote branch rev msg an un ue : String)
    (files : List String) (n : Nat) (base brOpt : Option String) (force : Bool) :
    exceptOk (git_status w p).1 = true ∧
    exceptOk (git_diff_unstaged w p).1 = true ∧
    exceptOk (git_diff_staged w p).1 = true ∧
    exceptOk (git_diff w p target).1 = true ∧
    exceptOk (git_add w p files).1 = true ∧
    exceptOk (git_reset w p).1 = true ∧
    exceptOk (git_log w p n).1 = true ∧
    exceptOk (git_create_branch w p name base).1 = true ∧
    exceptOk (git_checkout w p branch).1 = true ∧
    exceptOk (git_commit_direct w p msg an un ue).1 = true ∧
    exceptOk (git_commit w p msg an un ue).1 = true ∧
    exceptOk (git_show w p rev).1 = true ∧
    exceptOk (git_init w p).1 = true ∧
    exceptOk (git_remote_add w p name url).1 = true ∧
    exceptOk (git_push w p remote brOpt force).1 = true :=
  ⟨pyRun_ok _ _, pyRun_ok _ _, pyRun_ok _ _, pyRun_ok _ _, pyRun_ok _ _,
   pyRun_ok _ _, pyRun_ok _ _, pyRun_ok _ _, pyRun_ok _ _, pyRun_ok _ _,
   pyRun_ok _ _, pyRun_ok _ _, pyRun_ok _ _, pyRun_ok _ _, pyRun_ok _ _⟩

/-- Claim C5: on a valid repository with no commits, `git_log` returns the
empty list of commit summaries, not an error outcome, and leaves the world
unchanged. -/
theorem log_empty_repo_returns_empty_list (w : World) (p : String) (n : Nat) (r : Repo)
    (hp : (p == "") = false)
    (hex : w.existingPaths.contains p = true)
    (hr : repoAt w p = some r)
    (hempty : r.commits = []) :
    git_log w p n = (.ok [], w) := by
  have hv := validate_repo_ok w p r hp hex hr
  simp [git_log, withRepo, hv, pyRun, hempty]

/-- Witness for C5 on the concrete empty repository. -/
theorem log_empty_repo_returns_empty_list_witness :
    repoAt sampleWorld "/empty" = some emptyRepo ∧
    emptyRepo.commits = [] ∧
    git_log sampleWorld "/empty" 10 = (.ok [], sampleWorld) :=
  ⟨rfl, rfl,
   log_empty_repo_returns_empty_list sampleWorld "/empty" 10 emptyRepo rfl rfl rfl rfl⟩

/-- Claim C6: checking out a branch name that is neither an existing branch
nor the literal `HEAD` returns a not-found message, raises nothing, and leaves
the world — in particular the active branch — unchanged. -/
theorem checkout_nonexistent_branch_reports_not_found (w : World) (p b : String) (r : Repo)
    (hp : (p == "") = false)
    (hex : w.existingPaths.contains p = true)
    (hr : repoAt w p = some r)
    (hnb : r.heads.contains b = false)
    (hH : (b == "HEAD") = false) :
    git_checkout w p b = (.ok ("Error: Branch '" ++ b ++ "' does not exist"), w) := by
  have hv := validate_repo_ok w p r hp hex hr
  have hnb' : b ∉ r.heads := by simpa using hnb
  have hH' : b ≠ "HEAD" := by simpa using hH
  simp [git_checkout, withRepo, hv, pyRun, hnb', hH']

/-- Witness for C6: checking out the missing branch `feature`. -/
theorem checkout_nonexistent_branch_reports_not_found_witness :
    repoAt sampleWorld "/repo" = some sampleRepo ∧
    sampleRepo.heads.contains "feature" = false ∧
    git_checkout sampleWorld "/repo" "feature" =
      (.ok "Error: Branch 'feature' does not exist", sampleWorld) :=
  ⟨rfl, rfl,
   checkout_nonexistent_branch_reports_not_found sampleWorld "/repo" "feature" sampleRepo
     rfl rfl rfl rfl rfl⟩

/-- Claim C7: creating a branch whose name already exists returns an
already-exists message without raising and leaves the world — in particular
the set of branches — unchanged (idempotent no-op). -/
theorem create_branch_existing_is_noop (w : World) (p b : String) (base : Option String)
    (r : Repo)
    (hp : (p == "") = false)
    (hex : w.existingPaths.contains p = true)
    (hr : repoAt w p = some r)
    (hb : r.heads.contains b = true) :
    git_create_branch w p b base = (.ok ("Branch '" ++ b ++ "' already exists"), w) := by
  have hv := validate_repo_ok w p r hp hex hr
  have hb' : b ∈ r.heads := by simpa using hb
  simp [git_create_branch, withRepo, hv, pyRun, hb']

/-- Witness for C7: re-creating the existing branch `master`. -/
theorem create_branch_existing_is_noop_witness :
    repoAt sampleWorld "/repo" = some sampleRepo ∧
    sampleRepo.heads.contains "master" = true ∧
    git_create_branch sampleWorld "/repo" "master" none =
      (.ok "Branch 'master' already exists", sampleWorld) :=
  ⟨rfl, rfl,
   create_branch_existing_is_noop sampleWorld "/repo" "master" none sampleRepo
     rfl rfl rfl rfl⟩

/-- The body of `git_commit_direct` never changes the ambient process
environment, whichever path it takes: the four identity variables are written
only into the copied environment handed to the commit subprocess. -/
theorem git_commit_direct_body_env (w : World) (p msg an un ue : String) :
    ((git_commit_direct_body w p msg an un ue).2).env = w.env := by
  unfold git_commit_direct_body withRepo
  cases validate_repo w p with
  | error e => rfl
  | ok r =>
    dsimp only
    split
    · rfl
    · rcases hc : runGitCommit w p (commitEnv w.env (agentFullName an un) ue) msg
        with ⟨res, w1⟩
      have henv1 : w1.env = w.env := by
        have h := runGitCommit_env w p (commitEnv w.env (agentFullName an un) ue) msg
        rw [hc] at h
        exact h
      cases res with
      | error e => simp [hc, henv1]
      | ok s =>
        rcases hrp : runGitRevParseHead w1 p with ⟨res2, w2⟩
        have hw2 : w2 = w1 := by
          have h := runGitRevParseHead_world w1 p
          rw [hrp] at h
          exact h
        cases res2 with
        | error e2 => simp [hc, hrp, hw2, henv1]
        | ok hsh => simp [hc, hrp, hw2, henv1]

/-- Claim C8: `git_commit_direct` injects the identity variables only into the
execution environment of the isolated commit operation: after the call
returns, whether it succeeded or failed, the caller's ambient process
environment is exactly what it was before the call. -/
theorem commit_preserves_ambient_environment (w : World) (p msg an un ue : String) :
    ((git_commit_direct w p msg an un ue).2).env = w.env := by
  have h := pyRun_world commitExceptionHandler
    (git_commit_direct_body w p msg an un ue)
  calc ((git_commit_direct w p msg an un ue).2).env
      = ((git_commit_direct_body w p msg an un ue).2).env := by rw [git_commit_direct, h]
    _ = w.env := git_commit_direct_body_env w p msg an un ue

/-- Claim C4: showing a root commit (no parents) formats the diff computed
against the empty tree (`nullTreeDiff`), in which every tracked file of the
commit appears as an added path (`a` side absent, the file on the `b` side),
and the output string contains the commit's full hash (after the literal
`Commit: ` header) and the commit's message text. -/
theorem show_root_commit_diffs_against_empty_tree
    (w : World) (p rev : String) (r : Repo) (c : Commit)
    (hp : (p == "") = false)
    (hex : w.existingPaths.contains p = true)
    (hr : repoAt w p = some r)
    (hc : resolveCommit r rev = .ok c)
    (hroot : c.parents = []) :
    git_show w p rev =
      (.ok (joinAll (showHeader c :: (nullTreeDiff c).map showDiffEntry)), w) ∧
    (∀ f ∈ c.files,
      ({ a_path := none, b_path := some f.path, patch := "+" ++ f.content } : DiffEntry)
        ∈ nullTreeDiff c) ∧
    (∃ s, joinAll (showHeader c :: (nullTreeDiff c).map showDiffEntry)
            = "Commit: " ++ (c.hexsha ++ s)) ∧
    (∃ s t, joinAll (showHeader c :: (nullTreeDiff c).map showDiffEntry)
            = s ++ (c.message ++ t)) := by
  have hv := validate_repo_ok w p r hp hex hr
  refine ⟨?_, ?_, ?_, ?_⟩
  · simp [git_show, withRepo, hv, hc, pyRun, showEntries, hroot]
  · intro f hf
    exact List.mem_map_of_mem _ hf
  · refine ⟨"\nAuthor: " ++ (c.author ++ ("\nDate:   " ++ (c.date ++ ("\nMessage: "
        ++ (c.message ++ ("\n\n"
        ++ joinAll ((nullTreeDiff c).map showDiffEntry))))))), ?_⟩
    simp [joinAll, showHeader, String.append_assoc]
  · refine ⟨"Commit: " ++ (c.hexsha ++ ("\nAuthor: " ++ (c.author ++ ("\nDate:   "
        ++ (c.date ++ "\nMessage: "))))),
      "\n\n" ++ joinAll ((nullTreeDiff c).map showDiffEntry), ?_⟩
    simp [joinAll, showHeader, String.append_assoc]

/-- Witness for C4 on the concrete root commit of the sample repository. -/
theorem show_root_commit_diffs_against_empty_tree_witness :
    resolveCommit sampleRepo "a1b2c3d4e5f60718293a4b5c6d7e8f9012345678" = .ok rootCommit ∧
    rootCommit.parents = [] ∧
    (git_show sampleWorld "/repo" "a1b2c3d4e5f60718293a4b5c6d7e8f9012345678" =
      (.ok (joinAll (showHeader rootCommit :: (nullTreeDiff rootCommit).map showDiffEntry)),
       sampleWorld) ∧
    (∀ f ∈ rootCommit.files,
      ({ a_path := none, b_path := some f.path, patch := "+" ++ f.content } : DiffEntry)
        ∈ nullTreeDiff rootCommit) ∧
    (∃ s, joinAll (showHeader rootCommit :: (nullTreeDiff rootCommit).map showDiffEntry)
            = "Commit: " ++ (rootCommit.hexsha ++ s)) ∧
    (∃ s t, joinAll (showHeader rootCommit :: (nullTreeDiff rootCommit).map showDiffEntry)
            = s ++ (rootCommit.message ++ t))) :=
  ⟨rfl, rfl,
   show_root_commit_diffs_against_empty_tree sampleWorld "/repo"
     "a1b2c3d4e5f60718293a4b5c6d7e8f9012345678" sampleRepo rootCommit
     rfl rfl rfl rfl rfl⟩
